import Mathlib

/-!
# The `openshiftinstall` asset

A shallow embedding of `pkg/asset/openshiftinstall/openshiftinstall.go`: the
payload builder `CreateInstallConfig` and the asset unit `Config` with its
operations `Name`, `Dependencies`, `Generate`, `Files` and `Load`.

Go values are embedded as follows.

* A Go `string` and a Go `[]byte` are both finite byte sequences, and the
  conversions `string(b)` and `[]byte(s)` keep the bytes; both are `List UInt8`
  here and the conversions are the identity.
* A Go `error` is `Option GoError`, with `none` for `nil`.
* A pointer that may be `nil` (`*asset.File`) is an `Option`.
* A method that assigns to its receiver returns the receiver after the call.
* The collaborators the package consumes (`os.Getenv`, `version.Raw`,
  `yaml.Marshal`, the `asset.FileFetcher`) are fields of `Env` and
  `FileFetcher`; every call the code makes to the serializer or to the fetcher
  is recorded, in order, in the result of the operation that made it.
-/

namespace OpenshiftInstall

/-! ## Go values -/

/-- Go `string`: an immutable sequence of bytes. -/
abbrev GoString := List UInt8

/-- Go `[]byte`. -/
abbrev Bytes := List UInt8

/-- The Go string written as the literal `s` (its UTF-8 bytes). -/
def str (s : String) : GoString := s.toUTF8.data.toList

/-- Error values. `fundamental` is an error made by a collaborator; its flag
records whether `os.IsNotExist` holds of it. `withMessage` is what
`errors.Wrapf` builds around a cause. -/
inductive GoError where
  | fundamental (notExist : Bool) (msg : GoString)
  | withMessage (cause : GoError) (msg : GoString)
deriving DecidableEq, Repr

/-- The function `os.IsNotExist`: false of `nil`, and it does not look through an
`errors.Wrapf` wrapper. -/
def IsNotExist : Option GoError → Bool
  | some (.fundamental notExist _) => notExist
  | some (.withMessage _ _) => false
  | none => false

/-- The call `errors.Wrapf(err, format)` with no arguments after the format: `nil` for a
`nil` error, otherwise the cause annotated with the message. -/
def Wrapf (err : Option GoError) (format : GoString) : Option GoError :=
  match err with
  | none => none
  | some cause => some (.withMessage cause format)

/-- The function `errors.Cause`: the innermost error under the annotations. -/
def Cause : GoError → GoError
  | .fundamental notExist msg => .fundamental notExist msg
  | .withMessage cause _ => Cause cause

/-- The `Error()` text: an annotation prints as `msg: cause`. -/
def GoError.Error : GoError → GoString
  | .fundamental _ msg => msg
  | .withMessage cause msg => msg ++ str ": " ++ GoError.Error cause

/-! ## Paths -/

/-- The constant `filepath.Separator` on the platforms the installer builds for. -/
def Separator : UInt8 := 47

/-- The function `filepath.Join`: the non-empty elements joined by the separator. The
closing `Clean` of the library is the identity on the joined elements used
here, which are single clean path components. -/
def filepathJoin (elem : List GoString) : GoString :=
  List.intercalate [Separator] (elem.filter (fun s => s ≠ []))

/-- The variable `ConfigPath` is the relative path of openshift-install within the asset
directory. -/
def ConfigPath : GoString :=
  filepathJoin [str "openshift", str "openshift-install.yaml"]

/-! ## Kubernetes records -/

/-- The type `schema.GroupVersion`. -/
structure GroupVersion where
  Group : GoString
  Version : GoString
deriving DecidableEq, Repr

/-- The method `GroupVersion.String`: `group/version`, or the bare version for the empty
group. -/
def GroupVersion.String (gv : GroupVersion) : GoString :=
  if gv.Group ≠ [] then gv.Group ++ str "/" ++ gv.Version else gv.Version

/-- Modelled from the spec: `corev1.SchemeGroupVersion`, declared in the
vendored `k8s.io/api/core/v1`, is the core group (empty group name) at version
`v1`; the spec calls it the declared schema of the record. -/
def SchemeGroupVersion : GroupVersion := { Group := str "", Version := str "v1" }

/-- The type `metav1.TypeMeta`. -/
structure TypeMeta where
  Kind : GoString
  APIVersion : GoString
deriving DecidableEq, Repr

/-- The type `metav1.ObjectMeta`, the fields the package sets. -/
structure ObjectMeta where
  Name : GoString
  Namespace : GoString
deriving DecidableEq, Repr

/-- The type `corev1.ConfigMap`; `Data` is the `map[string]string`, as the list of its
entries. -/
structure ConfigMap where
  TypeMeta : TypeMeta
  ObjectMeta : ObjectMeta
  Data : List (GoString × GoString)
deriving DecidableEq, Repr

/-- Indexing the `Data` map: `some v` when the key is present. -/
def ConfigMap.get (cm : ConfigMap) (key : GoString) : Option GoString :=
  cm.Data.lookup key

/-- The keys of the `Data` map. -/
def ConfigMap.keys (cm : ConfigMap) : List GoString :=
  cm.Data.map Prod.fst

/-! ## Assets -/

/-- The type `asset.File`. -/
structure File where
  Filename : GoString
  Data : Bytes
deriving DecidableEq, Repr

/-- The interface `asset.FileFetcher`, the method `Load` uses. -/
structure FileFetcher where
  FetchByName : GoString → Option File × Option GoError

/-- The type `Config` generates the openshift-install ConfigMap. -/
structure Config where
  File : Option File
deriving DecidableEq, Repr

/-- What the package reads from its process: the environment, the build
version `version.Raw`, and the serializer `yaml.Marshal`. -/
structure Env where
  Getenv : GoString → GoString
  Raw : GoString
  Marshal : ConfigMap → Bytes × Option GoError

/-- The name of the environment variable holding the override. -/
def InvokerEnv : GoString := str "OPENSHIFT_INSTALL_INVOKER"

/-- Result of `CreateInstallConfig`: the returned pair, and the records handed
to `yaml.Marshal`, in call order. -/
structure CreateResult where
  out : GoString
  err : Option GoError
  marshalled : List ConfigMap
deriving DecidableEq, Repr

/-- Result of `Generate`: the receiver after the call, the returned error, and
the records handed to `yaml.Marshal`. -/
structure GenerateResult where
  unit : Config
  err : Option GoError
  marshalled : List ConfigMap
deriving DecidableEq, Repr

/-- Result of `Load`: the receiver after the call, the returned pair, and the
names asked of the fetcher, in call order. -/
structure LoadResult where
  unit : Config
  found : Bool
  err : Option GoError
  fetched : List GoString
deriving DecidableEq, Repr

/-- The method `Name` returns a human friendly name for the asset. -/
def Config.Name (_i : Config) : GoString := str "OpenShift Install"

/-- The method `Dependencies` returns all of the dependencies directly needed to generate
the asset. -/
def Config.Dependencies {Asset : Type} (_i : Config) : List Asset := []

/-- The function `CreateInstallConfig` creates the openshift-install ConfigMap from the
`OPENSHIFT_INSTALL_INVOKER` environment variable, and if not present, from the
provided default invoker. -/
def CreateInstallConfig (e : Env) (defaultInvoker : GoString) : CreateResult :=
  let env := e.Getenv InvokerEnv
  let resolved : Option GoString :=
    if env ≠ str "" then some env
    else if defaultInvoker ≠ str "" then some defaultInvoker
    else none
  match resolved with
  | none => { out := str "", err := none, marshalled := [] }
  | some invoker =>
    let cm : ConfigMap :=
      { TypeMeta := { APIVersion := SchemeGroupVersion.String, Kind := str "ConfigMap" }
        ObjectMeta := { Namespace := str "openshift-config", Name := str "openshift-install" }
        Data := [(str "version", e.Raw), (str "invoker", invoker)] }
    let res := e.Marshal cm
    if res.2 ≠ none then
      { out := str ""
        err := Wrapf res.2 (str "failed to create install-config ConfigMap")
        marshalled := [cm] }
    else
      { out := res.1, err := none, marshalled := [cm] }

/-- The method `Generate` generates the openshift-install ConfigMap. -/
def Config.Generate {Parents : Type} (e : Env) (i : Config) (_dependencies : Parents) :
    GenerateResult :=
  let r := CreateInstallConfig e (str "")
  if r.err ≠ none then
    { unit := i, err := r.err, marshalled := r.marshalled }
  else if r.out ≠ str "" then
    { unit := { File := some { Filename := ConfigPath, Data := r.out } }
      err := none
      marshalled := r.marshalled }
  else
    { unit := i, err := none, marshalled := r.marshalled }

/-- The method `Files` returns the files generated by the asset. -/
def Config.Files (i : Config) : List OpenshiftInstall.File :=
  match i.File with
  | some file => [file]
  | none => []

/-- The method `Load` loads the already-rendered files back from disk. -/
def Config.Load (i : Config) (f : FileFetcher) : LoadResult :=
  let res := f.FetchByName ConfigPath
  if IsNotExist res.2 then
    { unit := i, found := false, err := none, fetched := [ConfigPath] }
  else if res.2 ≠ none then
    { unit := i, found := false, err := res.2, fetched := [ConfigPath] }
  else
    { unit := { File := res.1 }, found := true, err := none, fetched := [ConfigPath] }

/-- A freshly constructed unit: the zero value of `Config`. -/
def Config.fresh : Config := { File := none }

/-! ## Names for the parts of `CreateInstallConfig` -/

/-- The record lines 94 to 107 build for a version and a resolved invoker. -/
def recordOf (version invoker : GoString) : ConfigMap :=
  { TypeMeta := { APIVersion := SchemeGroupVersion.String, Kind := str "ConfigMap" }
    ObjectMeta := { Namespace := str "openshift-config", Name := str "openshift-install" }
    Data := [(str "version", version), (str "invoker", invoker)] }

/-- The invoker lines 85 to 92 resolve, when there is one. -/
def resolvedInvoker (e : Env) (defaultInvoker : GoString) : GoString :=
  if e.Getenv InvokerEnv ≠ str "" then e.Getenv InvokerEnv else defaultInvoker

/-- The same process, with its environment and version, under another
serializer. -/
def Env.withMarshal (e : Env) (marshal : ConfigMap → Bytes × Option GoError) : Env :=
  { Getenv := e.Getenv, Raw := e.Raw, Marshal := marshal }

/-! ## Concrete collaborators for evaluation -/

/-- An environment in which only the override variable may be set. -/
def getenvOf (override : GoString) : GoString → GoString :=
  fun name => if name = InvokerEnv then override else str ""

/-- A serializer that accepts every record and prints its fields as lines of
text. -/
def marshalLines (cm : ConfigMap) : Bytes × Option GoError :=
  (str "apiVersion: " ++ cm.TypeMeta.APIVersion ++ str "\ndata:\n"
    ++ (cm.Data.map (fun kv => str "  " ++ kv.1 ++ str ": " ++ kv.2 ++ str "\n")).flatten
    ++ str "kind: " ++ cm.TypeMeta.Kind
    ++ str "\nmetadata:\n  name: " ++ cm.ObjectMeta.Name
    ++ str "\n  namespace: " ++ cm.ObjectMeta.Namespace ++ str "\n", none)

/-- The error of the rejecting serializer. -/
def marshalFailure : GoError := .fundamental false (str "json: unsupported value")

/-- A serializer that rejects every record, handing back some bytes with its
error. -/
def marshalReject (_cm : ConfigMap) : Bytes × Option GoError :=
  (str "apiVersion", some marshalFailure)

/-- A process with the given override and version, and a given serializer. -/
def envOf (override version : GoString)
    (marshal : ConfigMap → Bytes × Option GoError) : Env :=
  { Getenv := getenvOf override, Raw := version, Marshal := marshal }

/-- A fetcher that holds exactly the given files. -/
def fetcherOf (files : List File) : FileFetcher :=
  { FetchByName := fun name =>
      match files.find? (fun file => file.Filename = name) with
      | some file => (some file, none)
      | none => (none, some (.fundamental true (str "file does not exist"))) }

/-- A fetcher that fails on every name with the given error. -/
def fetcherFailing (err : GoError) : FileFetcher :=
  { FetchByName := fun _ => (none, some err) }

/-! ## Sequences of calls -/

/-- Whether the unit holds a file: the state the spec calls present. -/
def Config.present (i : Config) : Bool := i.File.isSome

/-- A call made on a unit, with the collaborators in force during the call. -/
inductive Call (P : Type) where
  | generate (e : Env) (dependencies : P)
  | load (f : FileFetcher)
  | files

/-- The unit after a call. `Files` only reads its receiver. -/
def Config.step {P : Type} (i : Config) : Call P → Config
  | .generate e dependencies => (i.Generate e dependencies).unit
  | .load f => (i.Load f).unit
  | .files => i

/-- The unit after a sequence of calls, made in order. -/
def Config.run {P : Type} (i : Config) (cs : List (Call P)) : Config :=
  cs.foldl Config.step i

/-- Whether a call is a `Generate` whose builder returned non-empty content and
no error, or a `Load` whose fetcher returned a file and no error. -/
def Call.stores {P : Type} : Call P → Bool
  | .generate e _ =>
    (CreateInstallConfig e (str "")).err.isNone &&
      decide ((CreateInstallConfig e (str "")).out ≠ str "")
  | .load f => (f.FetchByName ConfigPath).2.isNone && (f.FetchByName ConfigPath).1.isSome
  | .files => false

/-- Whether the fetcher of a `Load` answers the fixed path with an error or
with a file; it holds of the other calls. -/
def Call.fetchesFile {P : Type} : Call P → Bool
  | .generate _ _ => true
  | .load f => (f.FetchByName ConfigPath).2.isSome || (f.FetchByName ConfigPath).1.isSome
  | .files => true

/-- A fetcher that answers every name with no file and no error. -/
def fetcherNil : FileFetcher :=
  { FetchByName := fun _ => (none, none) }

/-! ## Auxiliary facts -/

theorem str_empty : str "" = [] := rfl

theorem createInstallConfig_skip (e : Env) (d : GoString)
    (he : e.Getenv InvokerEnv = str "") (hd : d = str "") :
    CreateInstallConfig e d = { out := str "", err := none, marshalled := [] } := by
  simp [CreateInstallConfig, he, hd]

theorem createInstallConfig_build (e : Env) (d : GoString)
    (h : e.Getenv InvokerEnv ≠ str "" ∨ d ≠ str "") :
    CreateInstallConfig e d =
      if (e.Marshal (recordOf e.Raw (resolvedInvoker e d))).2 ≠ none then
        { out := str ""
          err := Wrapf (e.Marshal (recordOf e.Raw (resolvedInvoker e d))).2
            (str "failed to create install-config ConfigMap")
          marshalled := [recordOf e.Raw (resolvedInvoker e d)] }
      else
        { out := (e.Marshal (recordOf e.Raw (resolvedInvoker e d))).1
          err := none
          marshalled := [recordOf e.Raw (resolvedInvoker e d)] } := by
  by_cases he : e.Getenv InvokerEnv = str ""
  · have hd : d ≠ str "" := by
      rcases h with h | h
      · exact absurd he h
      · exact h
    simp [CreateInstallConfig, recordOf, resolvedInvoker, he, hd]
  · simp [CreateInstallConfig, recordOf, resolvedInvoker, he]

theorem createInstallConfig_marshalled (e : Env) (d : GoString)
    (h : e.Getenv InvokerEnv ≠ str "" ∨ d ≠ str "") :
    (CreateInstallConfig e d).marshalled = [recordOf e.Raw (resolvedInvoker e d)] := by
  rw [createInstallConfig_build e d h]
  split <;> rfl

theorem createInstallConfig_outcome (e : Env) (d : GoString)
    (h : e.Getenv InvokerEnv ≠ str "" ∨ d ≠ str "") :
    ((e.Marshal (recordOf e.Raw (resolvedInvoker e d))).2 = none →
      (CreateInstallConfig e d).out = (e.Marshal (recordOf e.Raw (resolvedInvoker e d))).1 ∧
      (CreateInstallConfig e d).err = none) ∧
    (∀ err, (e.Marshal (recordOf e.Raw (resolvedInvoker e d))).2 = some err →
      (CreateInstallConfig e d).out = str "" ∧
      (CreateInstallConfig e d).err =
        some (.withMessage err (str "failed to create install-config ConfigMap"))) := by
  rw [createInstallConfig_build e d h]
  constructor
  · intro hok
    simp [hok]
  · intro err hrej
    simp [hrej, Wrapf]

theorem createInstallConfig_hands (e : Env) (d : GoString)
    (h : e.Getenv InvokerEnv ≠ str "" ∨ d ≠ str "")
    (marshal : ConfigMap → Bytes × Option GoError) :
    (CreateInstallConfig (e.withMarshal marshal) d).marshalled =
      [recordOf e.Raw (resolvedInvoker e d)] ∧
    ((marshal (recordOf e.Raw (resolvedInvoker e d))).2 = none →
      (CreateInstallConfig (e.withMarshal marshal) d).out =
        (marshal (recordOf e.Raw (resolvedInvoker e d))).1 ∧
      (CreateInstallConfig (e.withMarshal marshal) d).err = none) ∧
    (∀ err, (marshal (recordOf e.Raw (resolvedInvoker e d))).2 = some err →
      (CreateInstallConfig (e.withMarshal marshal) d).out = str "" ∧
      (CreateInstallConfig (e.withMarshal marshal) d).err =
        some (.withMessage err (str "failed to create install-config ConfigMap"))) :=
  ⟨createInstallConfig_marshalled (e.withMarshal marshal) d h,
   (createInstallConfig_outcome (e.withMarshal marshal) d h).1,
   (createInstallConfig_outcome (e.withMarshal marshal) d h).2⟩

theorem recordOf_get_invoker (version invoker : GoString) :
    (recordOf version invoker).get (str "invoker") = some invoker := by
  have hne : (str "invoker" == str "version") = false := by decide
  simp [recordOf, ConfigMap.get, List.lookup, hne]

theorem recordOf_get_version (version invoker : GoString) :
    (recordOf version invoker).get (str "version") = some version := by
  simp [recordOf, ConfigMap.get, List.lookup]

/-- C1. Whenever the environment override and the caller default are not both
empty, `CreateInstallConfig` hands the serializer one record, and the `invoker`
entry of that record is the override when that is non-empty and the default
otherwise; so the override wins when both are set. That this record is the one
the serializer receives shows in the result: under the serializer of the
process, and under every other serializer in the same environment, the string
returned is what the serializer makes of this record, and the error returned
wraps the error the serializer gives for this record. -/
theorem createInstallConfig_invoker (e : Env) (d : GoString)
    (h : e.Getenv InvokerEnv ≠ str "" ∨ d ≠ str "") :
    ∃ cm,
      cm.get (str "invoker") =
        some (if e.Getenv InvokerEnv ≠ str "" then e.Getenv InvokerEnv else d) ∧
      (e.Getenv InvokerEnv ≠ str "" → cm.get (str "invoker") = some (e.Getenv InvokerEnv)) ∧
      (e.Getenv InvokerEnv = str "" → cm.get (str "invoker") = some d) ∧
      (CreateInstallConfig e d).marshalled = [cm] ∧
      ((e.Marshal cm).2 = none →
        (CreateInstallConfig e d).out = (e.Marshal cm).1 ∧
        (CreateInstallConfig e d).err = none) ∧
      (∀ err, (e.Marshal cm).2 = some err →
        (CreateInstallConfig e d).out = str "" ∧
        (CreateInstallConfig e d).err =
          some (.withMessage err (str "failed to create install-config ConfigMap"))) ∧
      (∀ marshal : ConfigMap → Bytes × Option GoError,
        (CreateInstallConfig (e.withMarshal marshal) d).marshalled = [cm] ∧
        ((marshal cm).2 = none →
          (CreateInstallConfig (e.withMarshal marshal) d).out = (marshal cm).1 ∧
          (CreateInstallConfig (e.withMarshal marshal) d).err = none) ∧
        (∀ err, (marshal cm).2 = some err →
          (CreateInstallConfig (e.withMarshal marshal) d).out = str "" ∧
          (CreateInstallConfig (e.withMarshal marshal) d).err =
            some (.withMessage err (str "failed to create install-config ConfigMap")))) := by
  refine ⟨recordOf e.Raw (resolvedInvoker e d), ?_, ?_, ?_,
    createInstallConfig_marshalled e d h, (createInstallConfig_outcome e d h).1,
    (createInstallConfig_outcome e d h).2, createInstallConfig_hands e d h⟩
  · rw [recordOf_get_invoker]; rfl
  · intro he
    rw [recordOf_get_invoker]; simp [resolvedInvoker, he]
  · intro he
    rw [recordOf_get_invoker]; simp [resolvedInvoker, he]

theorem createInstallConfig_invoker_witness :
    (((envOf (str "my-tool") (str "v1.2.3") marshalLines).Getenv InvokerEnv ≠ str "" ∨
        str "installer-default" ≠ str "") ∧
      (CreateInstallConfig (envOf (str "my-tool") (str "v1.2.3") marshalLines)
          (str "installer-default")).out =
        str ("apiVersion: v1\ndata:\n  version: v1.2.3\n  invoker: my-tool\n" ++
          "kind: ConfigMap\nmetadata:\n  name: openshift-install\n" ++
          "  namespace: openshift-config\n") ∧
      ∃ cm, cm.get (str "invoker") = some (str "my-tool") ∧
        (CreateInstallConfig (envOf (str "my-tool") (str "v1.2.3") marshalLines)
          (str "installer-default")).out = (marshalLines cm).1 ∧
        (CreateInstallConfig
          ((envOf (str "my-tool") (str "v1.2.3") marshalLines).withMarshal marshalReject)
          (str "installer-default")).err =
          some (.withMessage marshalFailure
            (str "failed to create install-config ConfigMap"))) ∧
    (((envOf (str "") (str "v1.2.3") marshalLines).Getenv InvokerEnv ≠ str "" ∨
        str "installer-default" ≠ str "") ∧
      (CreateInstallConfig (envOf (str "") (str "v1.2.3") marshalLines)
          (str "installer-default")).out =
        str ("apiVersion: v1\ndata:\n  version: v1.2.3\n  invoker: installer-default\n" ++
          "kind: ConfigMap\nmetadata:\n  name: openshift-install\n" ++
          "  namespace: openshift-config\n") ∧
      ∃ cm, cm.get (str "invoker") = some (str "installer-default") ∧
        (CreateInstallConfig (envOf (str "") (str "v1.2.3") marshalLines)
          (str "installer-default")).out = (marshalLines cm).1) :=
  ⟨⟨by decide, by decide,
    (createInstallConfig_invoker (envOf (str "my-tool") (str "v1.2.3") marshalLines)
      (str "installer-default") (by decide)).imp
      (fun _ hcm => ⟨hcm.2.1 (by decide), (hcm.2.2.2.2.1 rfl).1,
        ((hcm.2.2.2.2.2.2 marshalReject).2.2 marshalFailure rfl).2⟩)⟩,
   ⟨by decide, by decide,
    (createInstallConfig_invoker (envOf (str "") (str "v1.2.3") marshalLines)
      (str "installer-default") (by decide)).imp
      (fun _ hcm => ⟨hcm.2.2.1 (by decide), (hcm.2.2.2.2.1 rfl).1⟩)⟩⟩

/-- C2. With the environment override empty and the default empty,
`CreateInstallConfig` returns the empty string and no error, whatever the
version and the serializer are, and hands nothing to the serializer. -/
theorem createInstallConfig_empty (e : Env) (d : GoString)
    (he : e.Getenv InvokerEnv = str "") (hd : d = str "") :
    (CreateInstallConfig e d).out = str "" ∧ (CreateInstallConfig e d).err = none ∧
      (CreateInstallConfig e d).marshalled = [] := by
  rw [createInstallConfig_skip e d he hd]
  exact ⟨rfl, rfl, rfl⟩

theorem createInstallConfig_empty_witness :
    (envOf (str "") (str "v1.2.3") marshalReject).Getenv InvokerEnv = str "" ∧
    (CreateInstallConfig (envOf (str "") (str "v1.2.3") marshalReject) (str "")).out = str "" ∧
    (CreateInstallConfig (envOf (str "") (str "v1.2.3") marshalReject) (str "")).err = none ∧
    (CreateInstallConfig (envOf (str "") (str "v1.2.3") marshalReject) (str "")).marshalled = [] :=
  ⟨by decide,
   createInstallConfig_empty (envOf (str "") (str "v1.2.3") marshalReject) (str "")
     (by decide) rfl⟩


/-! ### Load and Generate, case by case -/

theorem load_of_found (i : Config) (f : FileFetcher) (file : Option File)
    (h : f.FetchByName ConfigPath = (file, none)) :
    i.Load f = { unit := { File := file }, found := true, err := none,
                 fetched := [ConfigPath] } := by
  simp [Config.Load, h, IsNotExist]

theorem load_of_notExist (i : Config) (f : FileFetcher)
    (h : IsNotExist (f.FetchByName ConfigPath).2 = true) :
    i.Load f = { unit := i, found := false, err := none, fetched := [ConfigPath] } := by
  simp [Config.Load, h]

theorem load_of_failure (i : Config) (f : FileFetcher) (err : GoError)
    (herr : (f.FetchByName ConfigPath).2 = some err)
    (hne : IsNotExist (some err) = false) :
    i.Load f = { unit := i, found := false, err := some err, fetched := [ConfigPath] } := by
  simp [Config.Load, herr, hne]

theorem generate_of_content {P : Type} (e : Env) (i : Config) (deps : P)
    (herr : (CreateInstallConfig e (str "")).err = none)
    (hout : (CreateInstallConfig e (str "")).out ≠ str "") :
    i.Generate e deps =
      { unit := { File := some { Filename := ConfigPath,
                                 Data := (CreateInstallConfig e (str "")).out } }
        err := none
        marshalled := (CreateInstallConfig e (str "")).marshalled } := by
  simp [Config.Generate, herr, hout]

theorem generate_of_empty {P : Type} (e : Env) (i : Config) (deps : P)
    (herr : (CreateInstallConfig e (str "")).err = none)
    (hout : (CreateInstallConfig e (str "")).out = str "") :
    i.Generate e deps =
      { unit := i, err := none
        marshalled := (CreateInstallConfig e (str "")).marshalled } := by
  simp [Config.Generate, herr, hout]

theorem generate_of_error {P : Type} (e : Env) (i : Config) (deps : P) (berr : GoError)
    (herr : (CreateInstallConfig e (str "")).err = some berr) :
    i.Generate e deps =
      { unit := i, err := some berr
        marshalled := (CreateInstallConfig e (str "")).marshalled } := by
  simp [Config.Generate, herr]

theorem schemeGroupVersion_string : SchemeGroupVersion.String = str "v1" := by decide

theorem configPath_eq : ConfigPath = str "openshift/openshift-install.yaml" := by decide


/-- C3. Round trip. When the builder under an environment returns non-empty
content without error, so that `Generate` stores a file, and a fetcher answers
the fixed path with each entry of the generated unit's `Files()`, then `Load`
on a freshly constructed unit returns `(true, nil)` and the loaded unit's
`Files()` is the generated unit's `Files()`: one file, with the same filename
and the same bytes. -/
theorem generate_load_roundtrip {P : Type} (e : Env) (i : Config) (deps : P)
    (f : FileFetcher)
    (herr : (CreateInstallConfig e (str "")).err = none)
    (hout : (CreateInstallConfig e (str "")).out ≠ str "")
    (hf : ∀ file ∈ (i.Generate e deps).unit.Files,
      f.FetchByName ConfigPath = (some file, none)) :
    (Config.fresh.Load f).found = true ∧ (Config.fresh.Load f).err = none ∧
      (Config.fresh.Load f).unit.Files = (i.Generate e deps).unit.Files ∧
      (Config.fresh.Load f).unit.Files.map File.Filename =
        (i.Generate e deps).unit.Files.map File.Filename ∧
      (Config.fresh.Load f).unit.Files.map File.Data =
        (i.Generate e deps).unit.Files.map File.Data ∧
      (i.Generate e deps).unit.Files =
        [{ Filename := ConfigPath, Data := (CreateInstallConfig e (str "")).out }] := by
  have hgen := generate_of_content e i deps herr hout
  have hfiles : (i.Generate e deps).unit.Files =
      [{ Filename := ConfigPath, Data := (CreateInstallConfig e (str "")).out }] := by
    rw [hgen]; rfl
  have hfetch := hf _ (by rw [hfiles]; exact List.mem_singleton.mpr rfl)
  have hload := load_of_found Config.fresh f _ hfetch
  rw [hfiles, hload]
  exact ⟨rfl, rfl, rfl, rfl, rfl, rfl⟩

theorem generate_load_roundtrip_witness :
    (CreateInstallConfig (envOf (str "my-tool") (str "v1.2.3") marshalLines) (str "")).err
      = none ∧
    (CreateInstallConfig (envOf (str "my-tool") (str "v1.2.3") marshalLines) (str "")).out
      ≠ str "" ∧
    (Config.fresh.Load (fetcherOf
        (Config.fresh.Generate (envOf (str "my-tool") (str "v1.2.3") marshalLines)
          ()).unit.Files)).found = true ∧
    (Config.fresh.Load (fetcherOf
        (Config.fresh.Generate (envOf (str "my-tool") (str "v1.2.3") marshalLines)
          ()).unit.Files)).unit.Files =
      (Config.fresh.Generate (envOf (str "my-tool") (str "v1.2.3") marshalLines)
        ()).unit.Files :=
  have h := generate_load_roundtrip (envOf (str "my-tool") (str "v1.2.3") marshalLines)
    Config.fresh ()
    (fetcherOf (Config.fresh.Generate (envOf (str "my-tool") (str "v1.2.3") marshalLines)
      ()).unit.Files)
    (by decide) (by decide) (by decide)
  ⟨by decide, by decide, h.1, h.2.2.1⟩

/-- C4. When the fetcher answers the fixed path with a file and no error,
`Load` returns `(true, nil)` and the unit then holds exactly that file, with its
filename and bytes as returned, whatever the unit held before. `Load` reads
neither the environment nor the version. -/
theorem load_success (i : Config) (f : FileFetcher) (file : File)
    (h : f.FetchByName ConfigPath = (some file, none)) :
    (i.Load f).found = true ∧ (i.Load f).err = none ∧
      (i.Load f).unit.File = some file ∧ (i.Load f).unit.Files = [file] := by
  rw [load_of_found i f (some file) h]
  exact ⟨rfl, rfl, rfl, rfl⟩

theorem load_success_witness :
    (fetcherOf [{ Filename := ConfigPath, Data := str "kind: ConfigMap" }]).FetchByName
        ConfigPath = (some { Filename := ConfigPath, Data := str "kind: ConfigMap" }, none) ∧
    (({ File := some { Filename := str "stale", Data := str "old" } } : Config).Load
      (fetcherOf [{ Filename := ConfigPath, Data := str "kind: ConfigMap" }])).unit.Files =
      [{ Filename := ConfigPath, Data := str "kind: ConfigMap" }] :=
  ⟨by decide,
   (load_success { File := some { Filename := str "stale", Data := str "old" } }
      (fetcherOf [{ Filename := ConfigPath, Data := str "kind: ConfigMap" }])
      { Filename := ConfigPath, Data := str "kind: ConfigMap" } (by decide)).2.2.2⟩

/-- C5. For a unit holding no file and a fetcher that reports the fixed path as
not found (an error of which `os.IsNotExist` holds), `Load` returns
`(false, nil)` and the unit still holds no file: `Files()` is empty. -/
theorem load_not_found (i : Config) (f : FileFetcher) (hi : i.File = none)
    (h : IsNotExist (f.FetchByName ConfigPath).2 = true) :
    (i.Load f).found = false ∧ (i.Load f).err = none ∧
      (i.Load f).unit.File = none ∧ (i.Load f).unit.Files = [] := by
  rw [load_of_notExist i f h]
  refine ⟨rfl, rfl, hi, ?_⟩
  simp [Config.Files, hi]

theorem load_not_found_witness :
    Config.fresh.File = none ∧
    IsNotExist ((fetcherOf []).FetchByName ConfigPath).2 = true ∧
    (Config.fresh.Load (fetcherOf [])).found = false ∧
    (Config.fresh.Load (fetcherOf [])).err = none ∧
    (Config.fresh.Load (fetcherOf [])).unit.Files = [] :=
  have h := load_not_found Config.fresh (fetcherOf []) rfl (by decide)
  ⟨rfl, by decide, h.1, h.2.1, h.2.2.2⟩

/-- C6. For a unit holding no file and a fetcher that fails on the fixed path
with an error other than not found, `Load` returns `(false, err)` with `err`
the very error the fetcher returned, and `Files()` is empty afterwards. -/
theorem load_failure (i : Config) (f : FileFetcher) (err : GoError) (hi : i.File = none)
    (herr : (f.FetchByName ConfigPath).2 = some err)
    (hne : IsNotExist (some err) = false) :
    (i.Load f).found = false ∧ (i.Load f).err = some err ∧
      (i.Load f).unit.File = none ∧ (i.Load f).unit.Files = [] := by
  rw [load_of_failure i f err herr hne]
  refine ⟨rfl, rfl, hi, ?_⟩
  simp [Config.Files, hi]

theorem load_failure_witness :
    Config.fresh.File = none ∧
    ((fetcherFailing (.fundamental false (str "permission denied"))).FetchByName
        ConfigPath).2 = some (.fundamental false (str "permission denied")) ∧
    IsNotExist (some (.fundamental false (str "permission denied"))) = false ∧
    (Config.fresh.Load (fetcherFailing (.fundamental false (str "permission denied")))).err =
      some (.fundamental false (str "permission denied")) ∧
    (Config.fresh.Load
      (fetcherFailing (.fundamental false (str "permission denied")))).unit.Files = [] :=
  have h := load_failure Config.fresh
    (fetcherFailing (.fundamental false (str "permission denied")))
    (.fundamental false (str "permission denied")) rfl rfl rfl
  ⟨rfl, rfl, rfl, h.2.1, h.2.2.2⟩


/-- C7. Whatever the unit held before, when the builder returns non-empty
content `c` and no error, `Generate` returns no error and the unit then holds
exactly one file, named by the fixed relative path
`openshift/openshift-install.yaml`, whose data is the bytes of `c`. -/
theorem generate_stores_content {P : Type} (e : Env) (i : Config) (deps : P) (c : GoString)
    (hout : (CreateInstallConfig e (str "")).out = c)
    (herr : (CreateInstallConfig e (str "")).err = none)
    (hc : c ≠ str "") :
    (i.Generate e deps).err = none ∧
      (i.Generate e deps).unit.Files =
        [{ Filename := str "openshift/openshift-install.yaml", Data := c }] ∧
      (i.Generate e deps).unit.Files = [{ Filename := ConfigPath, Data := c }] := by
  subst hout
  rw [generate_of_content e i deps herr hc]
  refine ⟨rfl, ?_, rfl⟩
  rw [← configPath_eq]
  rfl

theorem generate_stores_content_witness :
    (CreateInstallConfig (envOf (str "my-tool") (str "v1.2.3") marshalLines) (str "")).err
      = none ∧
    (CreateInstallConfig (envOf (str "my-tool") (str "v1.2.3") marshalLines) (str "")).out
      ≠ str "" ∧
    (({ File := some { Filename := str "stale", Data := str "old" } } : Config).Generate
      (envOf (str "my-tool") (str "v1.2.3") marshalLines) ()).unit.Files =
      [{ Filename := str "openshift/openshift-install.yaml"
         Data := (CreateInstallConfig (envOf (str "my-tool") (str "v1.2.3") marshalLines)
           (str "")).out }] :=
  ⟨by decide, by decide,
   (generate_stores_content (envOf (str "my-tool") (str "v1.2.3") marshalLines)
      { File := some { Filename := str "stale", Data := str "old" } } () _ rfl
      (by decide) (by decide)).2.1⟩

/-- C8. For a unit holding no file, when the builder returns empty content and
no error, as it does when the environment override is empty, `Generate`
returns no error and the unit still holds no file: `Files()` is empty. -/
theorem generate_skips_empty {P : Type} (e : Env) (i : Config) (deps : P)
    (hi : i.File = none)
    (hout : (CreateInstallConfig e (str "")).out = str "")
    (herr : (CreateInstallConfig e (str "")).err = none) :
    (i.Generate e deps).err = none ∧ (i.Generate e deps).unit.File = none ∧
      (i.Generate e deps).unit.Files = [] := by
  rw [generate_of_empty e i deps herr hout]
  refine ⟨rfl, hi, ?_⟩
  simp [Config.Files, hi]

theorem generate_skips_empty_witness :
    (envOf (str "") (str "v1.2.3") marshalLines).Getenv InvokerEnv = str "" ∧
    (CreateInstallConfig (envOf (str "") (str "v1.2.3") marshalLines) (str "")).out = str "" ∧
    (CreateInstallConfig (envOf (str "") (str "v1.2.3") marshalLines) (str "")).err = none ∧
    (Config.fresh.Generate (envOf (str "") (str "v1.2.3") marshalLines) ()).err = none ∧
    (Config.fresh.Generate (envOf (str "") (str "v1.2.3") marshalLines) ()).unit.Files = [] :=
  have h := generate_skips_empty (envOf (str "") (str "v1.2.3") marshalLines) Config.fresh ()
    rfl (by decide) (by decide)
  ⟨by decide, by decide, by decide, h.1, h.2.2⟩

/-- C9. When the serializer rejects the record `CreateInstallConfig` hands it,
with cause `err`, `CreateInstallConfig` returns the empty string, whatever
bytes the serializer returned, and the error `errors.Wrapf` builds from `err`
and the message `failed to create install-config ConfigMap`, whose cause is
that of `err` and whose text is the message, a colon, and the text of `err`;
and when the builder fails, `Generate` returns the error of the builder
itself. -/
theorem createInstallConfig_marshal_failure (P : Type) (e : Env) (d : GoString)
    (cm : ConfigMap) (err : GoError)
    (hcm : (CreateInstallConfig e d).marshalled = [cm])
    (hrej : (e.Marshal cm).2 = some err) :
    ((CreateInstallConfig e d).out = str "" ∧
      (CreateInstallConfig e d).err =
        Wrapf (some err) (str "failed to create install-config ConfigMap") ∧
      (CreateInstallConfig e d).err =
        some (.withMessage err (str "failed to create install-config ConfigMap")) ∧
      (∀ werr, (CreateInstallConfig e d).err = some werr →
        Cause werr = Cause err ∧
        werr.Error =
          str "failed to create install-config ConfigMap" ++ str ": " ++ err.Error)) ∧
    (∀ (i : Config) (deps : P) (berr : GoError),
      (CreateInstallConfig e (str "")).err = some berr →
        (i.Generate e deps).err = some berr ∧
        (i.Generate e deps).err = (CreateInstallConfig e (str "")).err) := by
  constructor
  · have h : e.Getenv InvokerEnv ≠ str "" ∨ d ≠ str "" := by
      by_contra hno
      push_neg at hno
      rw [createInstallConfig_skip e d hno.1 hno.2] at hcm
      exact absurd hcm (by simp)
    have hrec := createInstallConfig_marshalled e d h
    rw [hcm] at hrec
    have hcm2 : cm = recordOf e.Raw (resolvedInvoker e d) := by simpa using hrec
    rw [hcm2] at hrej
    rw [createInstallConfig_build e d h]
    simp only [hrej, Wrapf]
    refine ⟨by simp, by simp, by simp, ?_⟩
    intro werr hw
    have hw2 : GoError.withMessage err (str "failed to create install-config ConfigMap")
        = werr := by simpa using hw
    subst hw2
    exact ⟨rfl, rfl⟩
  · intro i deps berr hb
    rw [generate_of_error e i deps berr hb, hb]
    exact ⟨rfl, rfl⟩

theorem createInstallConfig_marshal_failure_witness :
    (CreateInstallConfig (envOf (str "my-tool") (str "v1.2.3") marshalReject)
        (str "")).marshalled = [recordOf (str "v1.2.3") (str "my-tool")] ∧
    ((envOf (str "my-tool") (str "v1.2.3") marshalReject).Marshal
        (recordOf (str "v1.2.3") (str "my-tool"))).2 = some marshalFailure ∧
    (CreateInstallConfig (envOf (str "my-tool") (str "v1.2.3") marshalReject) (str "")).out
      = str "" ∧
    (CreateInstallConfig (envOf (str "my-tool") (str "v1.2.3") marshalReject) (str "")).err
      = some (.withMessage marshalFailure
          (str "failed to create install-config ConfigMap")) ∧
    (Config.fresh.Generate (envOf (str "my-tool") (str "v1.2.3") marshalReject) ()).err
      = some (.withMessage marshalFailure
          (str "failed to create install-config ConfigMap")) :=
  have h := createInstallConfig_marshal_failure Unit
    (envOf (str "my-tool") (str "v1.2.3") marshalReject) (str "")
    (recordOf (str "v1.2.3") (str "my-tool")) marshalFailure (by decide) rfl
  ⟨by decide, rfl, h.1.1, h.1.2.2.1, (h.2 Config.fresh () _ h.1.2.2.1).1⟩

/-- C10. Whenever the override or the default is non-empty,
`CreateInstallConfig` hands the serializer one record, with apiVersion `v1`,
kind `ConfigMap`, namespace `openshift-config`, name `openshift-install`, and a
data map with exactly the keys `version` and `invoker`, where `version` is the
process version and `invoker` is the resolved invoker, a non-empty string. That
this record is the one the serializer receives shows in the result: under the
serializer of the process, and under every other serializer in the same
environment, the string returned is what the serializer makes of this record,
and the error returned wraps the error the serializer gives for this record. -/
theorem createInstallConfig_record (e : Env) (d : GoString)
    (h : e.Getenv InvokerEnv ≠ str "" ∨ d ≠ str "") :
    ∃ cm invoker,
      cm.TypeMeta.APIVersion = str "v1" ∧ cm.TypeMeta.Kind = str "ConfigMap" ∧
      cm.ObjectMeta.Namespace = str "openshift-config" ∧
      cm.ObjectMeta.Name = str "openshift-install" ∧
      cm.keys = [str "version", str "invoker"] ∧
      (∀ key, (cm.get key).isSome ↔ key = str "version" ∨ key = str "invoker") ∧
      cm.get (str "version") = some e.Raw ∧
      cm.get (str "invoker") = some invoker ∧ invoker ≠ str "" ∧
      invoker = (if e.Getenv InvokerEnv ≠ str "" then e.Getenv InvokerEnv else d) ∧
      (CreateInstallConfig e d).marshalled = [cm] ∧
      ((e.Marshal cm).2 = none →
        (CreateInstallConfig e d).out = (e.Marshal cm).1 ∧
        (CreateInstallConfig e d).err = none) ∧
      (∀ err, (e.Marshal cm).2 = some err →
        (CreateInstallConfig e d).out = str "" ∧
        (CreateInstallConfig e d).err =
          some (.withMessage err (str "failed to create install-config ConfigMap"))) ∧
      (∀ marshal : ConfigMap → Bytes × Option GoError,
        (CreateInstallConfig (e.withMarshal marshal) d).marshalled = [cm] ∧
        ((marshal cm).2 = none →
          (CreateInstallConfig (e.withMarshal marshal) d).out = (marshal cm).1 ∧
          (CreateInstallConfig (e.withMarshal marshal) d).err = none) ∧
        (∀ err, (marshal cm).2 = some err →
          (CreateInstallConfig (e.withMarshal marshal) d).out = str "" ∧
          (CreateInstallConfig (e.withMarshal marshal) d).err =
            some (.withMessage err (str "failed to create install-config ConfigMap")))) := by
  refine ⟨recordOf e.Raw (resolvedInvoker e d), resolvedInvoker e d,
    schemeGroupVersion_string, rfl, rfl, rfl, rfl, ?_,
    recordOf_get_version _ _, recordOf_get_invoker _ _, ?_, rfl,
    createInstallConfig_marshalled e d h, (createInstallConfig_outcome e d h).1,
    (createInstallConfig_outcome e d h).2, createInstallConfig_hands e d h⟩
  · intro key
    simp only [ConfigMap.get, recordOf, List.lookup]
    by_cases h1 : key = str "version"
    · simp [h1]
    · by_cases h2 : key = str "invoker"
      · have hne : (str "invoker" == str "version") = false := by decide
        simp [h2, hne]
      · have b1 : (key == str "version") = false := by simpa using h1
        have b2 : (key == str "invoker") = false := by simpa using h2
        simp [h1, h2, b1, b2]
  · unfold resolvedInvoker
    split
    · assumption
    · rename_i he
      rcases h with h | h
      · exact absurd h he
      · exact h

theorem createInstallConfig_record_witness :
    ((envOf (str "my-tool") (str "v1.2.3") marshalLines).Getenv InvokerEnv ≠ str "" ∨
      str "" ≠ str "") ∧
    (CreateInstallConfig (envOf (str "my-tool") (str "v1.2.3") marshalLines) (str "")).out =
      str ("apiVersion: v1\ndata:\n  version: v1.2.3\n  invoker: my-tool\n" ++
        "kind: ConfigMap\nmetadata:\n  name: openshift-install\n" ++
        "  namespace: openshift-config\n") ∧
    ∃ cm,
      cm.TypeMeta.APIVersion = str "v1" ∧ cm.TypeMeta.Kind = str "ConfigMap" ∧
      cm.ObjectMeta.Namespace = str "openshift-config" ∧
      cm.ObjectMeta.Name = str "openshift-install" ∧
      cm.keys = [str "version", str "invoker"] ∧
      cm.get (str "version") = some (str "v1.2.3") ∧
      cm.get (str "invoker") = some (str "my-tool") ∧
      (CreateInstallConfig (envOf (str "my-tool") (str "v1.2.3") marshalLines) (str "")).out
        = (marshalLines cm).1 :=
  ⟨by decide, by decide,
   match createInstallConfig_record (envOf (str "my-tool") (str "v1.2.3") marshalLines)
      (str "") (by decide) with
   | ⟨cm, _, hapi, hkind, hns, hname, hkeys, _, hver, hinv, _, hres, _, hok, _, _⟩ =>
     ⟨cm, hapi, hkind, hns, hname, hkeys, hver,
      hinv.trans (congrArg some (hres.trans (by decide))), (hok rfl).1⟩⟩

/-! ### The unit over sequences of calls -/

theorem run_append {P : Type} (i : Config) (pre post : List (Call P)) :
    i.run (pre ++ post) = (i.run pre).run post := by
  simp [Config.run, List.foldl_append]

theorem run_snoc {P : Type} (i : Config) (pre : List (Call P)) (c : Call P) :
    i.run (pre ++ [c]) = (i.run pre).step c := by
  simp [Config.run, List.foldl_append]

theorem step_present {P : Type} (i : Config) (c : Call P)
    (hc : c.fetchesFile = true) (hi : i.present = true) : (i.step c).present = true := by
  cases c with
  | generate e deps =>
    simp only [Config.step, Config.Generate]
    split
    · exact hi
    · split
      · rfl
      · exact hi
  | load f =>
    simp only [Config.step, Config.Load]
    split
    · exact hi
    · split
      · exact hi
      · rename_i h1 h2
        have hnone : (f.FetchByName ConfigPath).2 = none := by simpa using h2
        simpa [Call.fetchesFile, hnone] using hc
  | files => exact hi

theorem step_stores {P : Type} (i : Config) (c : Call P)
    (hi : i.present = false) (hs : (i.step c).present = true) : c.stores = true := by
  cases c with
  | generate e deps =>
    simp only [Config.step, Config.Generate] at hs
    split at hs
    · rw [hi] at hs; exact absurd hs (by simp)
    · split at hs
      · rename_i h1 h2
        have hnone : (CreateInstallConfig e (str "")).err = none := by simpa using h1
        simp [Call.stores, hnone, h2]
      · rw [hi] at hs; exact absurd hs (by simp)
  | load f =>
    simp only [Config.step, Config.Load] at hs
    split at hs
    · rw [hi] at hs; exact absurd hs (by simp)
    · split at hs
      · rw [hi] at hs; exact absurd hs (by simp)
      · rename_i h1 h2
        have hnone : (f.FetchByName ConfigPath).2 = none := by simpa using h2
        simp only [Config.present] at hs
        simp [Call.stores, hnone, hs]
  | files =>
    simp only [Config.step] at hs
    rw [hi] at hs; exact absurd hs (by simp)

theorem run_present {P : Type} (post : List (Call P)) (i : Config)
    (hwf : ∀ c ∈ post, c.fetchesFile = true) (hi : i.present = true) :
    (i.run post).present = true := by
  induction post generalizing i with
  | nil => exact hi
  | cons c rest ih =>
    have hstep := step_present i c (hwf c (List.mem_cons_self c rest)) hi
    exact ih (i.step c) (fun c2 h2 => hwf c2 (List.mem_cons_of_mem c h2)) hstep

/-- C11, as stated, fails. A present unit returns to absent under a `Load`
whose fetcher answers with no error and no file: `Load` stores the nil file
and returns `(true, nil)`, and `Files()` is empty afterwards. -/
theorem present_not_kept_by_load :
    (Config.fresh.run
      [(Call.load (fetcherOf [{ Filename := ConfigPath, Data := str "kind: ConfigMap" }]) :
        Call Unit)]).present = true ∧
    (Config.fresh.run
      [(Call.load (fetcherOf [{ Filename := ConfigPath, Data := str "kind: ConfigMap" }]) :
        Call Unit),
       Call.load fetcherNil]).present = false ∧
    (({ File := some { Filename := ConfigPath, Data := str "kind: ConfigMap" } } : Config).Load
      fetcherNil).found = true ∧
    (({ File := some { Filename := ConfigPath, Data := str "kind: ConfigMap" } } : Config).Load
      fetcherNil).err = none ∧
    (({ File := some { Filename := ConfigPath, Data := str "kind: ConfigMap" } } : Config).Load
      fetcherNil).unit.Files = [] ∧
    ¬ (∀ (cs : List (Call Unit)) (c : Call Unit),
        (Config.fresh.run cs).present = true → (Config.fresh.run (cs ++ [c])).present = true) := by
  refine ⟨by decide, by decide, by decide, by decide, by decide, ?_⟩
  intro hall
  have h := hall
    [Call.load (fetcherOf [{ Filename := ConfigPath, Data := str "kind: ConfigMap" }])]
    (Call.load fetcherNil) (by decide)
  exact absurd h (by decide)

/-- C11, amended. Starting from a freshly constructed unit, over every finite
sequence of `Generate`, `Load` and `Files` calls in which every fetcher answers
the fixed path with an error or with a file, whatever the environments,
versions and serializer results are: once the unit is present it is present
after every later call, and a call takes the unit from absent to present only
if it is a `Generate` whose builder returned non-empty content without error or
a `Load` whose fetcher returned the file without error. -/
theorem run_present_stable {P : Type} (cs : List (Call P))
    (hwf : ∀ c ∈ cs, c.fetchesFile = true) :
    (∀ pre post, cs = pre ++ post →
      (Config.fresh.run pre).present = true → (Config.fresh.run cs).present = true) ∧
    (∀ pre c post, cs = pre ++ c :: post →
      (Config.fresh.run pre).present = false →
      (Config.fresh.run (pre ++ [c])).present = true → c.stores = true) := by
  constructor
  · intro pre post hcs hpre
    subst hcs
    rw [run_append]
    exact run_present post _ (fun c hc => hwf c (List.mem_append_right pre hc)) hpre
  · intro pre c post _ hpre hnext
    rw [run_snoc] at hnext
    exact step_stores _ c hpre hnext

theorem run_present_stable_witness :
    (∀ c ∈ [(Call.generate (envOf (str "") (str "v1.2.3") marshalLines) () : Call Unit),
        Call.load (fetcherOf [{ Filename := ConfigPath, Data := str "kind: ConfigMap" }]),
        Call.files,
        Call.generate (envOf (str "my-tool") (str "v1.2.3") marshalReject) (),
        Call.load (fetcherOf [])], c.fetchesFile = true) ∧
    (Config.fresh.run
      [(Call.generate (envOf (str "") (str "v1.2.3") marshalLines) () : Call Unit)]).present
      = false ∧
    (Config.fresh.run
      [(Call.generate (envOf (str "") (str "v1.2.3") marshalLines) () : Call Unit),
        Call.load (fetcherOf [{ Filename := ConfigPath, Data := str "kind: ConfigMap" }])]).present
      = true ∧
    (Config.fresh.run
      [(Call.generate (envOf (str "") (str "v1.2.3") marshalLines) () : Call Unit),
        Call.load (fetcherOf [{ Filename := ConfigPath, Data := str "kind: ConfigMap" }]),
        Call.files,
        Call.generate (envOf (str "my-tool") (str "v1.2.3") marshalReject) (),
        Call.load (fetcherOf [])]).present = true :=
  have hwf : ∀ c ∈ [(Call.generate (envOf (str "") (str "v1.2.3") marshalLines) () : Call Unit),
      Call.load (fetcherOf [{ Filename := ConfigPath, Data := str "kind: ConfigMap" }]),
      Call.files,
      Call.generate (envOf (str "my-tool") (str "v1.2.3") marshalReject) (),
      Call.load (fetcherOf [])], c.fetchesFile = true := by
    intro c hc
    simp only [List.mem_cons, List.mem_singleton, List.not_mem_nil, or_false] at hc
    rcases hc with h | h | h | h | h <;> subst h <;> decide
  ⟨hwf, by decide, by decide,
   (run_present_stable _ hwf).1
     [Call.generate (envOf (str "") (str "v1.2.3") marshalLines) (),
      Call.load (fetcherOf [{ Filename := ConfigPath, Data := str "kind: ConfigMap" }])]
     [Call.files,
      Call.generate (envOf (str "my-tool") (str "v1.2.3") marshalReject) (),
      Call.load (fetcherOf [])]
     rfl (by decide)⟩

/-- C12. For every unit, `Files()` is the one-element sequence holding the
stored file when the unit holds one and the empty sequence when it holds none,
so it never has more than one element; a `Files` call leaves the unit as it
was, so asking again gives the same answer. -/
theorem files_reflects_state (i : Config) :
    (∀ file, i.File = some file → i.Files = [file]) ∧
    (i.File = none → i.Files = []) ∧
    i.Files = i.File.toList ∧
    i.Files.length ≤ 1 ∧
    (∀ P : Type, i.step (Call.files : Call P) = i) ∧
    (∀ P : Type, (i.step (Call.files : Call P)).Files = i.Files) := by
  refine ⟨?_, ?_, ?_, ?_, fun _ => rfl, fun _ => rfl⟩
  · intro file h
    simp [Config.Files, h]
  · intro h
    simp [Config.Files, h]
  · cases h : i.File <;> simp [Config.Files, h]
  · cases h : i.File <;> simp [Config.Files, h]

theorem files_reflects_state_witness :
    ({ File := some { Filename := ConfigPath, Data := str "kind: ConfigMap" } } : Config).Files
      = [{ Filename := ConfigPath, Data := str "kind: ConfigMap" }] ∧
    Config.fresh.Files = [] :=
  ⟨(files_reflects_state
      { File := some { Filename := ConfigPath, Data := str "kind: ConfigMap" } }).1 _ rfl,
   (files_reflects_state Config.fresh).2.1 rfl⟩

theorem fetcherOf_holds (others : List File) (file : File)
    (hothers : ∀ x ∈ others, x.Filename ≠ file.Filename) :
    (fetcherOf (others ++ [file])).FetchByName file.Filename = (some file, none) := by
  have hfind : (others ++ [file]).find? (fun x => decide (x.Filename = file.Filename))
      = some file := by
    rw [List.find?_append]
    have hnone : others.find? (fun x => decide (x.Filename = file.Filename)) = none := by
      rw [List.find?_eq_none]
      intro x hx
      simpa using hothers x hx
    simp [hnone]
  simp only [fetcherOf, hfind]

theorem fetcherOf_lacks (others : List File) (name : GoString)
    (hothers : ∀ x ∈ others, x.Filename ≠ name) :
    (fetcherOf others).FetchByName name =
      (none, some (.fundamental true (str "file does not exist"))) := by
  have hnone : others.find? (fun x => decide (x.Filename = name)) = none := by
    rw [List.find?_eq_none]
    intro x hx
    simpa using hothers x hx
  simp only [fetcherOf, hnone]

/-- C13. For every unit and fetcher, `Load` asks the fetcher for exactly one
name, the fixed relative path `openshift/openshift-install.yaml`, and that is
the filename `Generate` gives to a file it stores. The query shows in what
`Load` returns: the answer of the fetcher for that path, and for no other
name, decides the result, a file answered there is the file stored, and an
error answered there is the error returned. So a fetcher that holds the file
`Generate` stored, under the filename `Generate` gave it, is found by `Load`,
and a fetcher that holds only files of other names is not. -/
theorem load_generate_same_path {P : Type} (e : Env) (i j : Config) (deps : P)
    (f : FileFetcher)
    (herr : (CreateInstallConfig e (str "")).err = none)
    (hout : (CreateInstallConfig e (str "")).out ≠ str "") :
    (j.Load f).fetched = [ConfigPath] ∧
    (j.Load f).fetched = [str "openshift/openshift-install.yaml"] ∧
    (∀ g : FileFetcher, g.FetchByName ConfigPath = f.FetchByName ConfigPath →
      j.Load g = j.Load f) ∧
    (∀ file, f.FetchByName (str "openshift/openshift-install.yaml") = (some file, none) →
      (j.Load f).found = true ∧ (j.Load f).err = none ∧ (j.Load f).unit.File = some file) ∧
    (∀ answer err, f.FetchByName (str "openshift/openshift-install.yaml") = (answer, some err) →
      (j.Load f).found = false ∧
      (j.Load f).err = (if IsNotExist (some err) = true then none else some err) ∧
      (j.Load f).unit = j) ∧
    (∃ file, (i.Generate e deps).unit.File = some file ∧
      file.Filename = str "openshift/openshift-install.yaml" ∧
      (j.Load f).fetched = [file.Filename] ∧
      (∀ others : List File, (∀ x ∈ others, x.Filename ≠ file.Filename) →
        (j.Load (fetcherOf (others ++ [file]))).found = true ∧
        (j.Load (fetcherOf (others ++ [file]))).unit.File = some file ∧
        (j.Load (fetcherOf others)).found = false ∧
        (j.Load (fetcherOf others)).unit = j)) := by
  have hfetched : (j.Load f).fetched = [ConfigPath] := by
    simp only [Config.Load]
    split
    · rfl
    · split <;> rfl
  refine ⟨hfetched, ?_, ?_, ?_, ?_, ?_⟩
  · rw [hfetched, configPath_eq]
  · intro g hg
    simp [Config.Load, hg]
  · intro file hfile
    rw [← configPath_eq] at hfile
    rw [load_of_found j f (some file) hfile]
    exact ⟨rfl, rfl, rfl⟩
  · intro answer err hans
    rw [← configPath_eq] at hans
    have h2 : (f.FetchByName ConfigPath).2 = some err := by rw [hans]
    by_cases hne : IsNotExist (some err) = true
    · rw [load_of_notExist j f (by rw [h2]; exact hne)]
      simp [hne]
    · have hne2 : IsNotExist (some err) = false := by simpa using hne
      rw [load_of_failure j f err h2 hne2]
      simp [hne2]
  · refine ⟨{ Filename := ConfigPath, Data := (CreateInstallConfig e (str "")).out }, ?_,
      configPath_eq, hfetched, ?_⟩
    · rw [generate_of_content e i deps herr hout]
    · intro others hothers
      have hholds := fetcherOf_holds others
        { Filename := ConfigPath, Data := (CreateInstallConfig e (str "")).out } hothers
      have hlacks := fetcherOf_lacks others ConfigPath hothers
      rw [load_of_found j _ _ hholds, load_of_notExist j (fetcherOf others) (by rw [hlacks]; rfl)]
      exact ⟨rfl, rfl, rfl, rfl⟩

theorem load_generate_same_path_witness :
    (CreateInstallConfig (envOf (str "my-tool") (str "v1.2.3") marshalLines) (str "")).err
      = none ∧
    (CreateInstallConfig (envOf (str "my-tool") (str "v1.2.3") marshalLines) (str "")).out
      ≠ str "" ∧
    (({ File := some { Filename := str "stale", Data := str "old" } } : Config).Load
      (fetcherOf [])).fetched = [str "openshift/openshift-install.yaml"] ∧
    (∃ file, (Config.fresh.Generate (envOf (str "my-tool") (str "v1.2.3") marshalLines)
        ()).unit.File = some file ∧
      file.Filename = str "openshift/openshift-install.yaml" ∧
      (({ File := some { Filename := str "stale", Data := str "old" } } : Config).Load
        (fetcherOf ([{ Filename := str "openshift/other.yaml", Data := str "no" }]
          ++ [file]))).unit.File = some file ∧
      (({ File := some { Filename := str "stale", Data := str "old" } } : Config).Load
        (fetcherOf [{ Filename := str "openshift/other.yaml", Data := str "no" }])).found
        = false) ∧
    (({ File := some { Filename := str "stale", Data := str "old" } } : Config).Load
      (fetcherOf [{ Filename := str "openshift/other.yaml", Data := str "no" },
        { Filename := str "openshift/openshift-install.yaml", Data := str "yes" }])).unit.Files
      = [{ Filename := str "openshift/openshift-install.yaml", Data := str "yes" }] :=
  have h := load_generate_same_path (envOf (str "my-tool") (str "v1.2.3") marshalLines)
    Config.fresh { File := some { Filename := str "stale", Data := str "old" } } ()
    (fetcherOf []) (by decide) (by decide)
  ⟨by decide, by decide, h.2.1,
   h.2.2.2.2.2.imp (fun file hfile =>
     have hothers : ∀ x ∈ [({ Filename := str "openshift/other.yaml", Data := str "no" } : File)],
         x.Filename ≠ file.Filename := by
       intro x hx
       rw [List.mem_singleton.mp hx, hfile.2.1]
       decide
     ⟨hfile.1, hfile.2.1, (hfile.2.2.2 _ hothers).2.1, (hfile.2.2.2 _ hothers).2.2.1⟩),
   by decide⟩

/-- C14. Generation is idempotent: for every unit, environment override,
version and serializer, a second `Generate` right after a first returns what
the first returned and leaves the unit as the first left it, with the same
stored filename and bytes; the dependencies arguments play no part. -/
theorem generate_idempotent {P Q : Type} (e : Env) (i : Config) (deps : P) (deps2 : Q) :
    (i.Generate e deps).unit.Generate e deps2 = i.Generate e deps ∧
    ((i.Generate e deps).unit.Generate e deps2).err = (i.Generate e deps).err ∧
    ((i.Generate e deps).unit.Generate e deps2).unit = (i.Generate e deps).unit ∧
    ((i.Generate e deps).unit.Generate e deps2).unit.Files = (i.Generate e deps).unit.Files := by
  have h : (i.Generate e deps).unit.Generate e deps2 = i.Generate e deps := by
    simp only [Config.Generate]
    split
    · rfl
    · split <;> rfl
  rw [h]
  exact ⟨rfl, rfl, rfl, rfl⟩

/-- C15. For every unit, `Dependencies()` is the empty sequence and `Name()` is
the fixed label `OpenShift Install`; both give the same answer on every unit,
whatever file it holds. -/
theorem name_and_dependencies (i : Config) :
    i.Name = str "OpenShift Install" ∧
    (∀ Asset : Type, (i.Dependencies : List Asset) = []) ∧
    (∀ j : Config, j.Name = i.Name) ∧
    (∀ (Asset : Type) (j : Config), (j.Dependencies : List Asset) = i.Dependencies) :=
  ⟨rfl, fun _ => rfl, fun _ => rfl, fun _ _ => rfl⟩

/-- C16. Whatever the unit held before, a call that fails or skips leaves the
stored file as it was: a `Load` that returns false, which is what it returns on
a fetcher error, not found or otherwise; a `Generate` whose builder returned an
error; and a `Generate` whose builder returned empty content. After each,
`Files()` is what it was before the call. -/
theorem failed_calls_keep_file (i : Config) :
    (∀ f : FileFetcher, (i.Load f).found = false →
      (i.Load f).unit = i ∧ (i.Load f).unit.Files = i.Files) ∧
    (∀ f : FileFetcher, (f.FetchByName ConfigPath).2 ≠ none →
      (i.Load f).found = false ∧ (i.Load f).unit = i ∧ (i.Load f).unit.Files = i.Files) ∧
    (∀ (P : Type) (e : Env) (deps : P), (CreateInstallConfig e (str "")).err ≠ none →
      (i.Generate e deps).unit = i ∧ (i.Generate e deps).unit.Files = i.Files) ∧
    (∀ (P : Type) (e : Env) (deps : P), (CreateInstallConfig e (str "")).err = none →
      (CreateInstallConfig e (str "")).out = str "" →
      (i.Generate e deps).unit = i ∧ (i.Generate e deps).unit.Files = i.Files) := by
  have hload : ∀ f : FileFetcher, (i.Load f).found = false → (i.Load f).unit = i := by
    intro f
    simp only [Config.Load]
    split
    · intro _; rfl
    · split
      · intro _; rfl
      · intro h; exact absurd h (by simp)
  refine ⟨?_, ?_, ?_, ?_⟩
  · intro f hf
    have h := hload f hf
    exact ⟨h, by rw [h]⟩
  · intro f hf
    have hfound : (i.Load f).found = false := by
      by_cases hne : IsNotExist (f.FetchByName ConfigPath).2 = true
      · simp [Config.Load, hne]
      · simp [Config.Load, hne, hf]
    have h := hload f hfound
    exact ⟨hfound, h, by rw [h]⟩
  · intro P e deps herr
    have h : (i.Generate e deps).unit = i := by
      simp [Config.Generate, herr]
    exact ⟨h, by rw [h]⟩
  · intro P e deps herr hout
    rw [generate_of_empty e i deps herr hout]
    exact ⟨rfl, rfl⟩

theorem failed_calls_keep_file_witness :
    (({ File := some { Filename := str "stale", Data := str "old" } } : Config).Load
      (fetcherOf [])).unit.Files = [{ Filename := str "stale", Data := str "old" }] ∧
    (({ File := some { Filename := str "stale", Data := str "old" } } : Config).Load
      (fetcherFailing (.fundamental false (str "permission denied")))).unit.Files =
      [{ Filename := str "stale", Data := str "old" }] ∧
    (({ File := some { Filename := str "stale", Data := str "old" } } : Config).Generate
      (envOf (str "my-tool") (str "v1.2.3") marshalReject) ()).unit.Files =
      [{ Filename := str "stale", Data := str "old" }] ∧
    (({ File := some { Filename := str "stale", Data := str "old" } } : Config).Generate
      (envOf (str "") (str "v1.2.3") marshalLines) ()).unit.Files =
      [{ Filename := str "stale", Data := str "old" }] :=
  have h := failed_calls_keep_file { File := some { Filename := str "stale", Data := str "old" } }
  ⟨(h.1 (fetcherOf []) (by decide)).2,
   (h.2.1 (fetcherFailing (.fundamental false (str "permission denied"))) (by decide)).2.2,
   (h.2.2.1 Unit (envOf (str "my-tool") (str "v1.2.3") marshalReject) () (by decide)).2,
   (h.2.2.2 Unit (envOf (str "") (str "v1.2.3") marshalLines) () (by decide) (by decide)).2⟩

/-- C17. `Generate` consults the builder with the empty default and makes no
use of its dependencies argument: its error and its serializer calls are those
of `CreateInstallConfig("")`, and its result is the same for every dependencies
value. So for a freshly constructed unit and a serializer that accepts every
record with non-empty output, the unit is present after `Generate` exactly when
the environment override is non-empty, and the bytes it then holds are the
output of `CreateInstallConfig("")` under the same environment and version. -/
theorem generate_uses_empty_default {P : Type} (e : Env) (deps : P)
    (hm : ∀ cm, (e.Marshal cm).2 = none ∧ (e.Marshal cm).1 ≠ str "") :
    ((Config.fresh.Generate e deps).unit.present = true ↔ e.Getenv InvokerEnv ≠ str "") ∧
    (∀ file, (Config.fresh.Generate e deps).unit.File = some file →
      file.Data = (CreateInstallConfig e (str "")).out ∧ file.Filename = ConfigPath) ∧
    (e.Getenv InvokerEnv ≠ str "" →
      (Config.fresh.Generate e deps).unit.Files =
        [{ Filename := ConfigPath, Data := (CreateInstallConfig e (str "")).out }]) ∧
    (∀ (Q : Type) (deps2 : Q) (i : Config), i.Generate e deps2 = i.Generate e deps) ∧
    (∀ i : Config, (i.Generate e deps).err = (CreateInstallConfig e (str "")).err ∧
      (i.Generate e deps).marshalled = (CreateInstallConfig e (str "")).marshalled) := by
  have hcalls : ∀ i : Config,
      (i.Generate e deps).err = (CreateInstallConfig e (str "")).err ∧
      (i.Generate e deps).marshalled = (CreateInstallConfig e (str "")).marshalled := by
    intro i
    simp only [Config.Generate]
    split
    · exact ⟨rfl, rfl⟩
    · rename_i h1
      have hnone : (CreateInstallConfig e (str "")).err = none := by simpa using h1
      split
      · exact ⟨hnone.symm, rfl⟩
      · exact ⟨hnone.symm, rfl⟩
  by_cases he : e.Getenv InvokerEnv = str ""
  · have hskip := createInstallConfig_skip e (str "") he rfl
    have hgen : Config.fresh.Generate e deps =
        { unit := Config.fresh, err := none, marshalled := [] } := by
      rw [generate_of_empty e Config.fresh deps (by rw [hskip]) (by rw [hskip]), hskip]
    refine ⟨?_, ?_, ?_, fun _ _ _ => rfl, hcalls⟩
    · rw [hgen]
      simp [Config.present, Config.fresh, he]
    · intro file hfile
      rw [hgen] at hfile
      simp [Config.fresh] at hfile
    · intro hne
      exact absurd he hne
  · have hbuild := createInstallConfig_build e (str "") (Or.inl he)
    have hacc := hm (recordOf e.Raw (resolvedInvoker e (str "")))
    have herr : (CreateInstallConfig e (str "")).err = none := by
      rw [hbuild]; simp [hacc.1]
    have hout : (CreateInstallConfig e (str "")).out ≠ str "" := by
      rw [hbuild]; simp only [hacc.1]; exact hacc.2
    have hgen := generate_of_content e Config.fresh deps herr hout
    refine ⟨?_, ?_, ?_, fun _ _ _ => rfl, hcalls⟩
    · rw [hgen]
      simp [Config.present, he]
    · intro file hfile
      rw [hgen] at hfile
      have hf : file = { Filename := ConfigPath, Data := (CreateInstallConfig e (str "")).out } := by
        simpa [eq_comm] using hfile
      rw [hf]
      exact ⟨rfl, rfl⟩
    · intro _
      rw [hgen]
      rfl

theorem generate_uses_empty_default_witness :
    (∀ cm, ((envOf (str "my-tool") (str "v1.2.3") marshalLines).Marshal cm).2 = none ∧
      ((envOf (str "my-tool") (str "v1.2.3") marshalLines).Marshal cm).1 ≠ str "") ∧
    (Config.fresh.Generate (envOf (str "my-tool") (str "v1.2.3") marshalLines) ()).unit.present
      = true ∧
    (Config.fresh.Generate (envOf (str "") (str "v1.2.3") marshalLines) ()).unit.present
      = false ∧
    (Config.fresh.Generate (envOf (str "my-tool") (str "v1.2.3") marshalLines) ()).unit.Files =
      [{ Filename := ConfigPath
         Data := (CreateInstallConfig (envOf (str "my-tool") (str "v1.2.3") marshalLines)
           (str "")).out }] :=
  have hm : ∀ cm, ((envOf (str "my-tool") (str "v1.2.3") marshalLines).Marshal cm).2 = none ∧
      ((envOf (str "my-tool") (str "v1.2.3") marshalLines).Marshal cm).1 ≠ str "" := by
    intro cm
    refine ⟨rfl, ?_⟩
    intro h
    have hlen := congrArg List.length h
    have h12 : (str "apiVersion: ").length = 12 := by decide
    have h0 : (str "").length = 0 := rfl
    simp only [envOf, marshalLines, List.length_append, h12, h0] at hlen
    omega
  have h := generate_uses_empty_default (envOf (str "my-tool") (str "v1.2.3") marshalLines) ()
    hm
  ⟨hm, h.1.mpr (by decide), by decide, h.2.2.1 (by decide)⟩

end OpenshiftInstall
